import Mathlib

/-!
Verification of the sprout personal-finance frontend.

Shallow embedding of the client-side logic: budget/goal progress rendering,
transaction amount filters, URL filter/pagination state, optimistic
update/delete of the transaction list, amount sign normalization on submit,
account net-worth aggregation, goal status badges, the budget edit payload,
and the API client's HTTP-status-to-message translation.

Monetary values are decimal strings in the source, parsed with parseFloat at
each use site; they are modelled as rationals (the parsed numeric value).
-/

namespace Sprout

/-! ## Progress bars (BudgetsPage part_001 / part_002, GoalsPage) -/

/-- JavaScript toFixed(1) on a non-negative number: round to one decimal
place (ties go to the larger value) and print with exactly one fractional
digit. -/
def toFixed1 (q : ℚ) : String :=
  toString ((q * 10 + 1 / 2).floor / 10) ++ "." ++
    toString ((q * 10 + 1 / 2).floor % 10)

/-- BudgetsPage (part_001 line 395): progress-bar width style
`Math.min(percentUsed, 100)` percent. -/
def budgetBarWidthPercent (percentUsed : ℚ) : ℚ :=
  min percentUsed 100

/-- BudgetsPage (part_001 line 399): the textual label
`percentUsed.toFixed(1)` followed by "% used"; not clamped. -/
def budgetPercentLabel (percentUsed : ℚ) : String :=
  toFixed1 percentUsed ++ "% used"

/-- BudgetsPage variant (part_002 line 376): same width expression
`Math.min(percentUsed, 100)`. -/
def budgetBarWidthPercentV2 (percentUsed : ℚ) : ℚ :=
  min percentUsed 100

/-- GoalsPage (goals/page.tsx line 352): progress-bar width style
`Math.min(progressPercent, 100)` percent. -/
def goalBarWidthPercent (progressPercent : ℚ) : ℚ :=
  min progressPercent 100

/-- GoalsPage (goals/page.tsx line 356): the textual label
`progressPercent.toFixed(1)` followed by "% complete"; not clamped. -/
def goalPercentLabel (progressPercent : ℚ) : String :=
  toFixed1 progressPercent ++ "% complete"

/-! ## Transaction amount filters (TransactionFilters.tsx) -/

inductive AmountFilterType where
  | all
  | income
  | expense
deriving DecidableEq, Repr

/-- The filter fields touched by the amount handlers; min_amount and
max_amount carry the numeric value of the string the component stores. -/
structure AmountFilterFields where
  min_amount : Option ℚ
  max_amount : Option ℚ
deriving DecidableEq, Repr

/-- TransactionFilters.tsx lines 107-139: entering a (parsed, non-NaN)
minimum v. For expenses it sets max_amount to -v; for income it sets
min_amount to v; the "all" branch passes the raw value through as
min_amount. Other fields are spread through unchanged. -/
def handleMinAmountChange (amountType : AmountFilterType) (v : ℚ)
    (filters : AmountFilterFields) : AmountFilterFields :=
  match amountType with
  | .expense => { filters with max_amount := some (-v) }
  | .income => { filters with min_amount := some v }
  | .all => { filters with min_amount := some v }

/-- TransactionFilters.tsx lines 141-173: entering a (parsed, non-NaN)
maximum v. For expenses it sets min_amount to -v; for income it sets
max_amount to v; the "all" branch passes the raw value through as
max_amount. -/
def handleMaxAmountChange (amountType : AmountFilterType) (v : ℚ)
    (filters : AmountFilterFields) : AmountFilterFields :=
  match amountType with
  | .expense => { filters with min_amount := some (-v) }
  | .income => { filters with max_amount := some v }
  | .all => { filters with max_amount := some v }

/-! ## Transactions page URL state (part_020 TransactionsPage) -/

/-- The URL search parameters the transactions page reads and writes. -/
structure TransactionsUrlParams where
  page : Option String
  search : Option String
  category_id : Option String
  date_from : Option String
  date_to : Option String
  min_amount : Option String
  max_amount : Option String
  is_uncategorized : Option String
deriving DecidableEq, Repr

/-- part_020 lines 389-394: copy the current searchParams and set only the
page parameter. -/
def handlePageChange (searchParams : TransactionsUrlParams) (page : Nat) :
    TransactionsUrlParams :=
  { searchParams with page := some (toString page) }

/-- The filter values handed to handleFilterChange (TransactionFilters
without page/limit). -/
structure NewTransactionFilters where
  search : Option String
  category_id : Option Nat
  date_from : Option String
  date_to : Option String
  min_amount : Option String
  max_amount : Option String
  is_uncategorized : Option Bool
deriving DecidableEq, Repr

/-- JavaScript truthiness for an optional string parameter: the source sets
the URL parameter only when the value is truthy (present and non-empty). -/
def setIfTruthy (o : Option String) : Option String :=
  match o with
  | some s => if s = "" then none else some s
  | none => none

/-- part_020 lines 396-414: build the URL parameters from scratch with
page = "1", then add each filter parameter only if its value is truthy
(`if (newFilters.x) params.set("x", ...)`; a category_id of 0 and an
is_uncategorized of false are falsy). -/
def handleFilterChange (newFilters : NewTransactionFilters) :
    TransactionsUrlParams :=
  { page := some "1"
    search := setIfTruthy newFilters.search
    category_id :=
      match newFilters.category_id with
      | some n => if n = 0 then none else some (toString n)
      | none => none
    date_from := setIfTruthy newFilters.date_from
    date_to := setIfTruthy newFilters.date_to
    min_amount := setIfTruthy newFilters.min_amount
    max_amount := setIfTruthy newFilters.max_amount
    is_uncategorized :=
      if newFilters.is_uncategorized = some true then some "true" else none }

/-! ## Optimistic transaction update and delete (part_012 TransactionTable) -/

/-- Category record (types/transactions.ts lines 2-7). -/
structure Category where
  id : Nat
  name : String
  icon : Option String
  color : Option String
deriving DecidableEq, Repr

/-- Transaction record (types/transactions.ts lines 20-35); decimal and date
strings are kept as strings here since the merge only copies them. -/
structure Transaction where
  id : Nat
  user_id : Nat
  account_id : Nat
  category_id : Option Nat
  goal_id : Option Nat
  amount : String
  date : String
  description : String
  normalized_merchant : Option String
  is_subscription : Bool
  notes : Option String
  category : Option Category
deriving DecidableEq, Repr

/-- Update patch (types/transactions.ts lines 76-84): an outer none means
the field is absent (undefined); for the nullable fields the inner Option
distinguishes null from a value. -/
structure TransactionUpdateRequest where
  description : Option String
  amount : Option String
  date : Option String
  category_id : Option (Option Nat)
  goal_id : Option (Option Nat)
  notes : Option (Option String)
  normalized_merchant : Option (Option String)
deriving DecidableEq, Repr

/-- JavaScript `a || b` for an optional string: undefined and the empty
string are falsy, so both fall back to b. -/
def jsOrStr (o : Option String) (b : String) : String :=
  match o with
  | some s => if s = "" then b else s
  | none => b

/-- part_012 lines 300-315: the object spread that builds the optimistically
updated transaction. description/amount/date use `data.x || tx.x`;
category_id and notes use `data.x !== undefined ? data.x : tx.x`; the
joined category object is looked up when data.category_id is truthy,
cleared when it is null, and kept otherwise. -/
def mergeTx (categories : List Category) (data : TransactionUpdateRequest)
    (tx : Transaction) : Transaction :=
  { tx with
    description := jsOrStr data.description tx.description
    amount := jsOrStr data.amount tx.amount
    date := jsOrStr data.date tx.date
    category_id :=
      match data.category_id with
      | some v => v
      | none => tx.category_id
    notes :=
      match data.notes with
      | some v => v
      | none => tx.notes
    category :=
      match data.category_id with
      | some (some n) =>
          if n = 0 then tx.category
          else
            match categories.find? (fun c => c.id == n) with
            | some c => some c
            | none => tx.category
      | some none => none
      | none => tx.category }

/-- Outcome of one optimistic mutation: the list right after the optimistic
set, the list after the request settles, and whether the error was
re-thrown to the caller. -/
structure MutationRun where
  optimistic : List Transaction
  final : List Transaction
  thrown : Bool
deriving DecidableEq, Repr

/-- part_012 lines 294-330 handleUpdate: snapshot the list, optimistically
map the merge over it, send the request; on failure restore the snapshot
and re-throw. (On success the final list is the optimistic one until the
next fetch.) -/
def handleUpdate (categories : List Category)
    (transactions : List Transaction) (id : Nat)
    (data : TransactionUpdateRequest) (requestFails : Bool) : MutationRun :=
  let originalTransactions := transactions
  let updatedTransactions := transactions.map
    (fun tx => if tx.id = id then mergeTx categories data tx else tx)
  if requestFails then
    { optimistic := updatedTransactions, final := originalTransactions,
      thrown := true }
  else
    { optimistic := updatedTransactions, final := updatedTransactions,
      thrown := false }

/-- part_012 lines 332-350 handleDelete: snapshot the list, optimistically
filter the id out, send the request; on failure restore the snapshot and
re-throw. (On success the code refetches; the final list shown here is the
optimistic one.) -/
def handleDelete (transactions : List Transaction) (id : Nat)
    (requestFails : Bool) : MutationRun :=
  let originalTransactions := transactions
  let remaining := transactions.filter (fun tx => tx.id != id)
  if requestFails then
    { optimistic := remaining, final := originalTransactions, thrown := true }
  else
    { optimistic := remaining, final := remaining, thrown := false }

/-- Stated from the claim's words, for comparison with mergeTx: the patched
transaction takes every field present in the patch (getD), including
goal_id and normalized_merchant, with the joined category object derived
from the patched category_id as in the source. -/
def applyPatchPlain (categories : List Category)
    (data : TransactionUpdateRequest) (tx : Transaction) : Transaction :=
  { tx with
    description := data.description.getD tx.description
    amount := data.amount.getD tx.amount
    date := data.date.getD tx.date
    category_id := data.category_id.getD tx.category_id
    goal_id := data.goal_id.getD tx.goal_id
    notes := data.notes.getD tx.notes
    normalized_merchant :=
      data.normalized_merchant.getD tx.normalized_merchant
    category :=
      match data.category_id with
      | some (some n) =>
          if n = 0 then tx.category
          else
            match categories.find? (fun c => c.id == n) with
            | some c => some c
            | none => tx.category
      | some none => none
      | none => tx.category }

/-- Concrete transaction used by the C4 counterexample and witness. -/
def coffeeTx : Transaction :=
  { id := 1, user_id := 1, account_id := 1, category_id := none,
    goal_id := none, amount := "-4.50", date := "2026-01-02",
    description := "Coffee", normalized_merchant := none,
    is_subscription := false, notes := none, category := none }

/-- A patch whose description is the empty string. -/
def emptyDescriptionPatch : TransactionUpdateRequest :=
  { description := some "", amount := none, date := none,
    category_id := none, goal_id := none, notes := none,
    normalized_merchant := none }

/-- A patch whose description is a non-empty string. -/
def teaDescriptionPatch : TransactionUpdateRequest :=
  { description := some "Tea", amount := none, date := none,
    category_id := none, goal_id := none, notes := none,
    normalized_merchant := none }

/-- A patch setting a non-empty description together with a goal_id. -/
def goalIdPatch : TransactionUpdateRequest :=
  { description := some "Tea", amount := none, date := none,
    category_id := none, goal_id := some (some 7), notes := none,
    normalized_merchant := none }

/-! ## Amount sign normalization on submit (ManualTransactionForm.tsx,
part_004 TransactionRow) -/

inductive TransactionType where
  | expense
  | income
deriving DecidableEq, Repr

/-- ManualTransactionForm.tsx lines 127-130: the transmitted amount is
`-Math.abs(amount)` for an expense and `Math.abs(amount)` otherwise. The
form's validateForm (lines 96-102) has already rejected values that are
not strictly positive. -/
def manualFormFinalAmount (transactionType : TransactionType)
    (amount : ℚ) : ℚ :=
  if transactionType = TransactionType.expense then -|amount| else |amount|

/-- part_004 lines 80-95 handleSave: reject a non-positive entered amount,
otherwise submit `-Math.abs(amount)` when the stored transaction amount is
negative and `Math.abs(amount)` when it is not. -/
def rowSaveFinalAmount (storedAmount : ℚ) (entered : ℚ) : Option ℚ :=
  if entered ≤ 0 then none
  else if storedAmount < 0 then some (-|entered|) else some |entered|

/-! ## Net worth aggregation (part_015 AccountsList, part_020 accounts page,
types/accounts.ts) -/

/-- Account record (types/accounts.ts lines 1-10); balance is a decimal
string in the source, parsed with parseFloat at each use, modelled as its
numeric value. -/
structure Account where
  id : Nat
  user_id : Nat
  plaid_item_id : Option Nat
  name : String
  account_type : String
  provider : String
  balance : ℚ
  is_active : Bool
deriving DecidableEq, Repr

/-- The reduce step shared by both total-balance computations: a
credit_card account's balance is subtracted, every other account type's
balance is added. -/
def totalBalanceStep (sum : ℚ) (acc : Account) : ℚ :=
  if acc.account_type = "credit_card" then sum - acc.balance
  else sum + acc.balance

/-- part_020 lines 47-57: `accounts.reduce(..., 0)` over the given list. -/
def totalBalanceReduce (accounts : List Account) : ℚ :=
  accounts.foldl totalBalanceStep 0

/-- The signed contribution of one account to the net-worth figure. -/
def accountContribution (acc : Account) : ℚ :=
  if acc.account_type = "credit_card" then -acc.balance else acc.balance

/-- part_015 line 110: `accounts.filter((a) => a.is_active)`. -/
def activeAccounts (accounts : List Account) : List Account :=
  accounts.filter (fun a => a.is_active)

/-- part_015 lines 112-124: the AccountsList net-worth total, the same
reduce but over the active accounts only. -/
def accountsListTotalBalance (accounts : List Account) : ℚ :=
  totalBalanceReduce (activeAccounts accounts)

/-- part_015 lines 127-137: the manual-accounts group holds the active
accounts with no plaid_item_id, in order. -/
def manualAccounts (accounts : List Account) : List Account :=
  (activeAccounts accounts).filter (fun a => a.plaid_item_id = none)

/-- part_015 lines 127-137: the per-institution group for one plaid item id
holds the active accounts carrying that id, in order (the forEach appends
each account to its id's bucket). -/
def accountsByPlaidItem (accounts : List Account) (itemId : Nat) :
    List Account :=
  (activeAccounts accounts).filter (fun a => a.plaid_item_id = some itemId)

/-- types/accounts.ts lines 12-72 MOCK_ACCOUNTS, balances parsed. -/
def MOCK_ACCOUNTS : List Account :=
  [ { id := 1, user_id := 1, plaid_item_id := some 1,
      name := "Chase Checking", account_type := "depository",
      provider := "plaid", balance := 5432 + 18 / 100, is_active := true },
    { id := 2, user_id := 1, plaid_item_id := some 2,
      name := "Ally Savings", account_type := "depository",
      provider := "plaid", balance := 12500, is_active := true },
    { id := 3, user_id := 1, plaid_item_id := some 1,
      name := "Chase Freedom Credit Card", account_type := "credit",
      provider := "plaid", balance := -(1234 + 56 / 100),
      is_active := true },
    { id := 4, user_id := 1, plaid_item_id := some 3,
      name := "Fidelity Brokerage", account_type := "investment",
      provider := "plaid", balance := 45678 + 90 / 100,
      is_active := true },
    { id := 5, user_id := 1, plaid_item_id := none, name := "Cash",
      account_type := "cash", provider := "manual", balance := 250,
      is_active := true },
    { id := 6, user_id := 1, plaid_item_id := none,
      name := "Old Bank Account", account_type := "depository",
      provider := "manual", balance := 0, is_active := false } ]

/-! ## Goal on_track and status badge (part_023 Goal type, goals/page.tsx) -/

/-- Modelled from the spec: the backend computation of a goal's on_track
field is not part of this repository (part_023 only declares the field and
the frontend renders it). Per the spec, on_track is null when target_date
or monthly_contribution is absent, or when the goal is already met;
otherwise it compares the planned future contribution with the remaining
amount, and a target date already past with the goal unmet yields false.
The target date enters through the whole months remaining until it
(non-positive when it has passed). -/
def goalOnTrack (targetMonthsAway : Option ℤ)
    (monthlyContribution : Option ℚ) (isMet : Bool) (remaining : ℚ) :
    Option Bool :=
  match targetMonthsAway, monthlyContribution with
  | some m, some mc =>
      if isMet then none
      else if m ≤ 0 then some false
      else some (decide (remaining ≤ mc * (m : ℚ)))
  | _, _ => none

inductive GoalBadge where
  | met
  | onTrack
  | behind
deriving DecidableEq, Repr

/-- goals/page.tsx lines 296-310: the status badge next to the goal name.
is_met shows "Goal met"; otherwise a non-null on_track shows "On track" or
"Behind"; a null on_track shows no badge. -/
def goalStatusBadge (is_met : Bool) (on_track : Option Bool) :
    Option GoalBadge :=
  if is_met then some GoalBadge.met
  else
    match on_track with
    | some b => some (if b then GoalBadge.onTrack else GoalBadge.behind)
    | none => none

/-! ## Budget form submit payload (BudgetForm.tsx) -/

/-- The form state the budget form keeps (category_id, month, year, amount
string). -/
structure BudgetFormData where
  category_id : Nat
  month : Nat
  year : Nat
  amount : String
deriving DecidableEq, Repr

/-- A request payload as a record of optional fields: none means the field
is absent from the transmitted object. -/
structure BudgetSubmitPayload where
  category_id : Option Nat
  month : Option Nat
  year : Option Nat
  amount : Option String
deriving DecidableEq, Repr

/-- BudgetForm.tsx lines 128-142 handleSubmit: in edit mode (a budget was
passed in) the submitted object holds only the amount; in create mode it
holds category_id, month, year and amount. -/
def budgetFormSubmitPayload (isEditMode : Bool) (formData : BudgetFormData) :
    BudgetSubmitPayload :=
  if isEditMode then
    { category_id := none, month := none, year := none,
      amount := some formData.amount }
  else
    { category_id := some formData.category_id,
      month := some formData.month, year := some formData.year,
      amount := some formData.amount }

/-- BudgetForm.tsx lines 199-295: the category select, month select and
year input all carry `disabled={isEditMode}`. -/
def budgetFieldDisabled (isEditMode : Bool) : Bool :=
  isEditMode

/-! ## API client status-to-message translation (lib/api.ts) -/

/-- A received HTTP response as the client-side wrappers see it: the status
code, the detail field of the parsed error body (none when absent; wrappers
with a .catch substitute their default object on parse failure), and the
stringified parsed body. -/
structure ApiResponse where
  status : Nat
  detail : Option String
  body : String
deriving DecidableEq, Repr

/-- JavaScript `response.ok`: status in [200, 300). -/
def respOk (r : ApiResponse) : Bool :=
  decide (200 ≤ r.status) && decide (r.status < 300)

def unauthorizedMessage : String := "Unauthorized: Please log in again"

/-- api.ts lines 66-74 fetchDashboard: the thrown message for a response,
none when no error is thrown at the status checks. -/
def fetchDashboardErrorMessage (r : ApiResponse) : Option String :=
  if r.status = 401 then some unauthorizedMessage
  else if respOk r then none
  else some "Failed to fetch dashboard data"

/-- api.ts lines 94-110 getPlaidLinkToken: no 401 branch; every non-ok
response throws the body detail, falling back (JS or-chain, parse failure
caught as detail "Unknown error") to a generic message carrying the
status. -/
def getPlaidLinkTokenErrorMessage (r : ApiResponse) : Option String :=
  if respOk r then none
  else some (jsOrStr r.detail
    ("Failed to get Plaid link token: " ++ toString r.status))

/-- api.ts lines 112-142 exchangePlaidToken: no 401 branch; every non-ok
response throws the body detail, falling back to a generic message
carrying the status. -/
def exchangePlaidTokenErrorMessage (r : ApiResponse) : Option String :=
  if respOk r then none
  else some (jsOrStr r.detail
    ("Failed to exchange Plaid token: " ++ toString r.status))

/-- api.ts lines 144-156 getPlaidItems: no 401 branch; every non-ok
response throws a fixed message. -/
def getPlaidItemsErrorMessage (r : ApiResponse) : Option String :=
  if respOk r then none
  else some "Failed to load Plaid items"

/-- api.ts lines 183-198 fetchTransactions. -/
def fetchTransactionsErrorMessage (r : ApiResponse) : Option String :=
  if r.status = 401 then some unauthorizedMessage
  else if respOk r then none
  else some "Failed to fetch transactions"

/-- api.ts lines 200-210 fetchCategories: no 401 branch; every non-ok
response throws a fixed message. -/
def fetchCategoriesErrorMessage (r : ApiResponse) : Option String :=
  if respOk r then none
  else some "Failed to fetch categories"

/-- api.ts lines 212-229 fetchAccounts. -/
def fetchAccountsErrorMessage (r : ApiResponse) : Option String :=
  if r.status = 401 then some unauthorizedMessage
  else if respOk r then none
  else some "Failed to fetch accounts"

/-- api.ts lines 243-260 fetchPlaidItems. -/
def fetchPlaidItemsErrorMessage (r : ApiResponse) : Option String :=
  if r.status = 401 then some unauthorizedMessage
  else if respOk r then none
  else some "Failed to fetch Plaid items"

/-- api.ts lines 270-296 fetchPlaidItemStatus. -/
def fetchPlaidItemStatusErrorMessage (r : ApiResponse) : Option String :=
  if r.status = 401 then some unauthorizedMessage
  else if r.status = 404 then some "Plaid item not found"
  else if respOk r then none
  else some "Failed to fetch Plaid item status"

/-- api.ts lines 298-323 getReauthLinkToken. -/
def getReauthLinkTokenErrorMessage (r : ApiResponse) : Option String :=
  if r.status = 401 then some unauthorizedMessage
  else if respOk r then none
  else some (jsOrStr r.detail "Failed to get reauth link token")

/-- api.ts lines 325-353 triggerPlaidSync. -/
def triggerPlaidSyncErrorMessage (r : ApiResponse) : Option String :=
  if r.status = 401 then some unauthorizedMessage
  else if r.status = 404 then some "Plaid item not found"
  else if respOk r then none
  else some (jsOrStr r.detail "Failed to trigger sync")

/-- api.ts lines 355-399 createTransaction (status checks; the timeout
abort path is outside the response translation). -/
def createTransactionErrorMessage (r : ApiResponse) : Option String :=
  if r.status = 401 then some unauthorizedMessage
  else if r.status = 400 then
    some (jsOrStr r.detail "Invalid transaction data")
  else if respOk r then none
  else some "Failed to create transaction"

/-- api.ts lines 401-458 updateTransaction (status checks; the 400/422
message is detail, else the stringified body, else the fixed fallback). -/
def updateTransactionErrorMessage (r : ApiResponse) : Option String :=
  if r.status = 401 then some unauthorizedMessage
  else if r.status = 404 then some "Transaction not found"
  else if r.status = 400 ∨ r.status = 422 then
    some (jsOrStr r.detail (jsOrStr (some r.body) "Invalid transaction data"))
  else if respOk r then none
  else some "Failed to update transaction"

/-- api.ts lines 460-498 deleteTransaction (status checks). -/
def deleteTransactionErrorMessage (r : ApiResponse) : Option String :=
  if r.status = 401 then some unauthorizedMessage
  else if r.status = 404 then some "Transaction not found"
  else if respOk r then none
  else some "Failed to delete transaction"

/-- api.ts lines 500-521 fetchUncategorizedCount. -/
def fetchUncategorizedCountErrorMessage (r : ApiResponse) : Option String :=
  if r.status = 401 then some unauthorizedMessage
  else if respOk r then none
  else some "Failed to fetch uncategorized count"

/-- api.ts lines 523-560 processBatchUncategorized (status checks). -/
def processBatchUncategorizedErrorMessage (r : ApiResponse) : Option String :=
  if r.status = 401 then some unauthorizedMessage
  else if respOk r then none
  else some "Failed to start batch processing"

/-- api.ts lines 567-593 fetchBudgets. -/
def fetchBudgetsErrorMessage (r : ApiResponse) : Option String :=
  if r.status = 401 then some unauthorizedMessage
  else if respOk r then none
  else some "Failed to fetch budgets"

/-- api.ts lines 595-618 createBudget. -/
def createBudgetErrorMessage (r : ApiResponse) : Option String :=
  if r.status = 401 then some unauthorizedMessage
  else if respOk r then none
  else some (jsOrStr r.detail "Failed to create budget")

/-- api.ts lines 620-650 updateBudget. -/
def updateBudgetErrorMessage (r : ApiResponse) : Option String :=
  if r.status = 401 then some unauthorizedMessage
  else if r.status = 404 then some "Budget not found"
  else if respOk r then none
  else some (jsOrStr r.detail "Failed to update budget")

/-- api.ts lines 652-677 deleteBudget. -/
def deleteBudgetErrorMessage (r : ApiResponse) : Option String :=
  if r.status = 401 then some unauthorizedMessage
  else if r.status = 404 then some "Budget not found"
  else if respOk r then none
  else some "Failed to delete budget"

/-- api.ts lines 679-702 fetchGoals. -/
def fetchGoalsErrorMessage (r : ApiResponse) : Option String :=
  if r.status = 401 then some unauthorizedMessage
  else if respOk r then none
  else some "Failed to fetch goals"

/-- api.ts lines 704-728 createGoal. -/
def createGoalErrorMessage (r : ApiResponse) : Option String :=
  if r.status = 401 then some unauthorizedMessage
  else if respOk r then none
  else some (jsOrStr r.detail "Failed to create goal")

/-- api.ts lines 730-759 updateGoal. -/
def updateGoalErrorMessage (r : ApiResponse) : Option String :=
  if r.status = 401 then some unauthorizedMessage
  else if r.status = 404 then some "Goal not found"
  else if respOk r then none
  else some (jsOrStr r.detail "Failed to update goal")

/-- api.ts lines 761-786 deleteGoal. -/
def deleteGoalErrorMessage (r : ApiResponse) : Option String :=
  if r.status = 401 then some unauthorizedMessage
  else if r.status = 404 then some "Goal not found"
  else if respOk r then none
  else some "Failed to delete goal"

end Sprout

/-! ## Theorems -/

/-- C1: for every budget and goal card, the progress-bar width is
`min percent 100`, hence at most 100, in all three render sites; the
textual percentage is the unclamped value: at percent_used = 120 the bar
width is 100 while the label reads "120.0% used" (and "120.0% complete"
for goals). -/
theorem progress_bar_clamped_label_unclamped :
    (∀ p : ℚ, Sprout.budgetBarWidthPercent p = min p 100 ∧
      Sprout.budgetBarWidthPercent p ≤ 100 ∧
      Sprout.budgetBarWidthPercentV2 p ≤ 100 ∧
      Sprout.goalBarWidthPercent p ≤ 100) ∧
    Sprout.budgetBarWidthPercent 120 = 100 ∧
    Sprout.budgetPercentLabel 120 = "120.0% used" ∧
    Sprout.goalBarWidthPercent 120 = 100 ∧
    Sprout.goalPercentLabel 120 = "120.0% complete" := by
  have hfloor : (((120 : ℚ)) * 10 + 1 / 2).floor = 1200 := by
    norm_num [Rat.floor]
  refine ⟨fun p => ⟨rfl, min_le_right _ _, min_le_right _ _, min_le_right _ _⟩,
    by unfold Sprout.budgetBarWidthPercent; norm_num,
    by unfold Sprout.budgetPercentLabel Sprout.toFixed1; rw [hfloor]; rfl,
    by unfold Sprout.goalBarWidthPercent; norm_num,
    by unfold Sprout.goalPercentLabel Sprout.toFixed1; rw [hfloor]; rfl⟩

/-- C2: for every positive entered value v, with amount type "expense" the
minimum handler sets max_amount to -v (amount at most -v) and the maximum
handler sets min_amount to -v (amount at least -v); with amount type
"income" the entered minimum and maximum pass through unchanged in sign. -/
theorem amount_filter_sign_translation (v : ℚ)
    (f : Sprout.AmountFilterFields) (hv : 0 < v) :
    (Sprout.handleMinAmountChange .expense v f).max_amount = some (-v) ∧
    (Sprout.handleMaxAmountChange .expense v f).min_amount = some (-v) ∧
    (Sprout.handleMinAmountChange .income v f).min_amount = some v ∧
    (Sprout.handleMaxAmountChange .income v f).max_amount = some v :=
  ⟨rfl, rfl, rfl, rfl⟩

/-- Witness for C2 at v = 10 on empty filters. -/
theorem amount_filter_sign_translation_witness :
    (0 : ℚ) < 10 ∧
    (Sprout.handleMinAmountChange .expense 10
      { min_amount := none, max_amount := none }).max_amount = some (-10) := by
  refine ⟨by norm_num, ?_⟩
  exact (amount_filter_sign_translation 10
    { min_amount := none, max_amount := none } (by norm_num)).1

/-- C3: every filter change writes page = "1" into the resulting URL state,
while a page-only change rewrites exactly the page parameter and leaves
every other filter parameter of the URL state unchanged. -/
theorem filter_change_resets_page_and_page_change_is_framed :
    (∀ nf : Sprout.NewTransactionFilters,
      (Sprout.handleFilterChange nf).page = some "1") ∧
    (∀ (cur : Sprout.TransactionsUrlParams) (pg : Nat),
      (Sprout.handlePageChange cur pg).page = some (toString pg) ∧
      (Sprout.handlePageChange cur pg).search = cur.search ∧
      (Sprout.handlePageChange cur pg).category_id = cur.category_id ∧
      (Sprout.handlePageChange cur pg).date_from = cur.date_from ∧
      (Sprout.handlePageChange cur pg).date_to = cur.date_to ∧
      (Sprout.handlePageChange cur pg).min_amount = cur.min_amount ∧
      (Sprout.handlePageChange cur pg).max_amount = cur.max_amount ∧
      (Sprout.handlePageChange cur pg).is_uncategorized =
        cur.is_uncategorized) :=
  ⟨fun _ => rfl, fun _ _ => ⟨rfl, rfl, rfl, rfl, rfl, rfl, rfl, rfl⟩⟩

/-- Helper: the JavaScript falsy-coalescing string merge agrees with plain
patch application whenever the patched value is not the empty string. -/
theorem jsOrStr_eq_getD (o : Option String) (b : String)
    (h : o ≠ some "") : Sprout.jsOrStr o b = o.getD b := by
  cases o with
  | none => rfl
  | some s =>
    have hs : s ≠ "" := fun he => h (by rw [he])
    simp [Sprout.jsOrStr, hs]

/-- Helper: under non-empty patched strings, the source merge equals plain
patch application of the patch with its goal_id and normalized_merchant
dropped (the merge never applies those two fields). -/
theorem mergeTx_eq_applyPatchPlain (categories : List Sprout.Category)
    (data : Sprout.TransactionUpdateRequest)
    (hd : data.description ≠ some "") (ha : data.amount ≠ some "")
    (hdt : data.date ≠ some "") (tx : Sprout.Transaction) :
    Sprout.mergeTx categories data tx =
      Sprout.applyPatchPlain categories
        { data with goal_id := none, normalized_merchant := none } tx := by
  unfold Sprout.mergeTx Sprout.applyPatchPlain
  rw [jsOrStr_eq_getD _ _ hd, jsOrStr_eq_getD _ _ ha, jsOrStr_eq_getD _ _ hdt]
  cases hcid : data.category_id <;> cases hn : data.notes <;>
    simp [Option.getD, hcid, hn]

/-- C4 counterexample: the claim that handleUpdate replaces the
transaction's fields with the patched values fails at two concrete
inputs. With a patch whose description is the empty string, the
optimistic list keeps the old description "Coffee" instead of taking the
patched value ""; and with a patch setting goal_id to 7 (alongside a
non-empty description), the optimistic list keeps the old goal_id none,
since the merge never applies goal_id or normalized_merchant. -/
theorem optimistic_update_ignored_fields_counterexample :
    Sprout.emptyDescriptionPatch.description = some "" ∧
    (Sprout.handleUpdate [] [Sprout.coffeeTx] 1 Sprout.emptyDescriptionPatch
      false).optimistic.map (fun t => t.description) = ["Coffee"] ∧
    ("Coffee" : String) ≠ "" ∧
    Sprout.goalIdPatch.goal_id = some (some 7) ∧
    (Sprout.handleUpdate [] [Sprout.coffeeTx] 1 Sprout.goalIdPatch
      false).optimistic.map (fun t => t.goal_id) = [none] ∧
    (none : Option Nat) ≠ some 7 :=
  ⟨rfl, rfl, by decide, rfl, rfl, by decide⟩

/-- C4 amended: for every patch whose present description, amount and date
are non-empty strings, handleUpdate first applies the patch to the
matching transaction in the in-memory list exactly as plain patch
application of the patch with goal_id and normalized_merchant dropped
(absent-or-empty string fields keep the old value by the falsy-coalescing
merge, and the merge never applies goal_id or normalized_merchant, which
keep their old values), and on request failure the list is restored to
exactly its pre-update snapshot with the error re-thrown; handleDelete
optimistically filters the id out and on failure restores the exact
snapshot and re-throws likewise. -/
theorem optimistic_update_applies_patch_and_reverts
    (categories : List Sprout.Category) (txs : List Sprout.Transaction)
    (id : Nat) (data : Sprout.TransactionUpdateRequest)
    (hd : data.description ≠ some "") (ha : data.amount ≠ some "")
    (hdt : data.date ≠ some "") :
    (∀ fails, (Sprout.handleUpdate categories txs id data fails).optimistic =
      txs.map (fun tx => if tx.id = id
        then Sprout.applyPatchPlain categories
          { data with goal_id := none, normalized_merchant := none } tx
        else tx)) ∧
    (∀ tx, (Sprout.mergeTx categories data tx).goal_id = tx.goal_id) ∧
    (∀ tx, (Sprout.mergeTx categories data tx).normalized_merchant =
      tx.normalized_merchant) ∧
    (Sprout.handleUpdate categories txs id data true).final = txs ∧
    (Sprout.handleUpdate categories txs id data true).thrown = true ∧
    (Sprout.handleUpdate categories txs id data false).final =
      (Sprout.handleUpdate categories txs id data false).optimistic ∧
    (Sprout.handleUpdate categories txs id data false).thrown = false ∧
    (∀ fails, (Sprout.handleDelete txs id fails).optimistic =
      txs.filter (fun tx => tx.id != id)) ∧
    (Sprout.handleDelete txs id true).final = txs ∧
    (Sprout.handleDelete txs id true).thrown = true := by
  have hm : ∀ tx, Sprout.mergeTx categories data tx =
      Sprout.applyPatchPlain categories
        { data with goal_id := none, normalized_merchant := none } tx :=
    mergeTx_eq_applyPatchPlain categories data hd ha hdt
  refine ⟨fun fails => ?_, fun tx => rfl, fun tx => rfl,
    rfl, rfl, rfl, rfl, fun fails => ?_, rfl, rfl⟩
  · cases fails <;> simp only [Sprout.handleUpdate, if_true, if_false,
      Bool.false_eq_true, hm]
  · cases fails <;> rfl

/-- Witness for C4 (amended) with a concrete non-empty patch on a
one-element list under a failing request. -/
theorem optimistic_update_applies_patch_and_reverts_witness :
    Sprout.teaDescriptionPatch.description ≠ some "" ∧
    Sprout.teaDescriptionPatch.amount ≠ some "" ∧
    Sprout.teaDescriptionPatch.date ≠ some "" ∧
    (Sprout.handleUpdate [] [Sprout.coffeeTx] 1 Sprout.teaDescriptionPatch
      true).final = [Sprout.coffeeTx] := by
  refine ⟨by decide, by decide, by decide, ?_⟩
  exact (optimistic_update_applies_patch_and_reverts [] [Sprout.coffeeTx] 1
    Sprout.teaDescriptionPatch (by decide) (by decide)
    (by decide)).2.2.2.1

/-- C5: for every validated (positive) entered value, creating an expense
transmits -|amount| (negative) and an income transmits |amount|
(positive); saving an edit keeps the sign of the stored amount: a negative
stored amount yields a negative submitted amount and a non-negative stored
amount yields a non-negative one. -/
theorem submitted_amount_sign_normalized (a : ℚ) (ha : 0 < a) :
    Sprout.manualFormFinalAmount Sprout.TransactionType.expense a = -|a| ∧
    Sprout.manualFormFinalAmount Sprout.TransactionType.expense a < 0 ∧
    Sprout.manualFormFinalAmount Sprout.TransactionType.income a = |a| ∧
    0 < Sprout.manualFormFinalAmount Sprout.TransactionType.income a ∧
    (∀ stored : ℚ, stored < 0 →
      Sprout.rowSaveFinalAmount stored a = some (-|a|) ∧
      ∀ r ∈ Sprout.rowSaveFinalAmount stored a, r < 0) ∧
    (∀ stored : ℚ, 0 ≤ stored →
      Sprout.rowSaveFinalAmount stored a = some |a| ∧
      ∀ r ∈ Sprout.rowSaveFinalAmount stored a, 0 ≤ r) := by
  have habs : |a| = a := abs_of_pos ha
  have hnle : ¬a ≤ 0 := not_le.mpr ha
  refine ⟨by simp [Sprout.manualFormFinalAmount],
    by simp [Sprout.manualFormFinalAmount, habs]; exact ha,
    by simp [Sprout.manualFormFinalAmount],
    by simp [Sprout.manualFormFinalAmount, habs]; exact ha,
    fun stored hs => ?_, fun stored hs => ?_⟩
  · refine ⟨by simp [Sprout.rowSaveFinalAmount, hnle, hs], ?_⟩
    intro r hr
    simp [Sprout.rowSaveFinalAmount, hnle, hs] at hr
    rw [← hr, habs]
    exact neg_neg_of_pos ha
  · have hns : ¬stored < 0 := not_lt.mpr hs
    refine ⟨by simp [Sprout.rowSaveFinalAmount, hnle, hns], ?_⟩
    intro r hr
    simp [Sprout.rowSaveFinalAmount, hnle, hns] at hr
    rw [← hr, habs]
    exact le_of_lt ha

/-- Witness for C5 at an entered amount of 5 with stored amounts -3 and 2. -/
theorem submitted_amount_sign_normalized_witness :
    (0 : ℚ) < 5 ∧ (-3 : ℚ) < 0 ∧
    Sprout.rowSaveFinalAmount (-3) 5 = some (-|5|) ∧
    Sprout.rowSaveFinalAmount 2 5 = some |5| := by
  have h := submitted_amount_sign_normalized 5 (by norm_num)
  exact ⟨by norm_num, by norm_num,
    (h.2.2.2.2.1 (-3) (by norm_num)).1, (h.2.2.2.2.2 2 (by norm_num)).1⟩

/-- C6: the reduce underlying both net-worth totals equals the sum of the
accounts' signed contributions, a credit_card account contributing its
balance negatively and every other account type positively; the
AccountsList total is that sum over its active accounts. -/
theorem net_worth_signed_sum (accounts : List Sprout.Account) :
    Sprout.totalBalanceReduce accounts =
      (accounts.map Sprout.accountContribution).sum ∧
    Sprout.accountsListTotalBalance accounts =
      ((Sprout.activeAccounts accounts).map
        Sprout.accountContribution).sum := by
  have key : ∀ (l : List Sprout.Account) (init : ℚ),
      l.foldl Sprout.totalBalanceStep init =
        init + (l.map Sprout.accountContribution).sum := by
    intro l
    induction l with
    | nil => intro init; simp
    | cons a t ih =>
      intro init
      simp only [List.foldl_cons, List.map_cons, List.sum_cons, ih]
      unfold Sprout.totalBalanceStep Sprout.accountContribution
      by_cases hc : a.account_type = "credit_card" <;> simp [hc] <;> ring
  constructor
  · simpa [Sprout.totalBalanceReduce] using key accounts 0
  · simpa [Sprout.accountsListTotalBalance, Sprout.totalBalanceReduce]
      using key (Sprout.activeAccounts accounts) 0

/-- C10: an inactive account contributes nothing to the AccountsList
net-worth total and is excluded from both rendered groups (the manual
group and every per-institution group). -/
theorem inactive_accounts_excluded_from_total_and_groups
    (pre post : List Sprout.Account) (a : Sprout.Account)
    (ha : a.is_active = false) :
    Sprout.accountsListTotalBalance (pre ++ a :: post) =
      Sprout.accountsListTotalBalance (pre ++ post) ∧
    a ∉ Sprout.manualAccounts (pre ++ a :: post) ∧
    ∀ itemId, a ∉ Sprout.accountsByPlaidItem (pre ++ a :: post) itemId := by
  refine ⟨?_, ?_, fun itemId => ?_⟩
  · unfold Sprout.accountsListTotalBalance Sprout.activeAccounts
    simp [List.filter_append, ha]
  · intro hmem
    simp only [Sprout.manualAccounts] at hmem
    have h1 := List.mem_of_mem_filter hmem
    simp only [Sprout.activeAccounts] at h1
    have h2 := List.of_mem_filter h1
    rw [ha] at h2
    exact Bool.false_ne_true h2
  · intro hmem
    simp only [Sprout.accountsByPlaidItem] at hmem
    have h1 := List.mem_of_mem_filter hmem
    simp only [Sprout.activeAccounts] at h1
    have h2 := List.of_mem_filter h1
    rw [ha] at h2
    exact Bool.false_ne_true h2

/-- Witness for C10 at the mock data's inactive "Old Bank Account". -/
theorem inactive_accounts_excluded_witness :
    (Sprout.MOCK_ACCOUNTS.take 5 ++
      { id := 6, user_id := 1, plaid_item_id := none,
        name := "Old Bank Account", account_type := "depository",
        provider := "manual", balance := 0,
        is_active := false : Sprout.Account } :: []) =
      Sprout.MOCK_ACCOUNTS ∧
    Sprout.accountsListTotalBalance Sprout.MOCK_ACCOUNTS =
      Sprout.accountsListTotalBalance (Sprout.MOCK_ACCOUNTS.take 5 ++ []) := by
  refine ⟨rfl, ?_⟩
  exact (inactive_accounts_excluded_from_total_and_groups
    (Sprout.MOCK_ACCOUNTS.take 5) []
    { id := 6, user_id := 1, plaid_item_id := none,
      name := "Old Bank Account", account_type := "depository",
      provider := "manual", balance := 0, is_active := false } rfl).1

/-- C7: on_track is null whenever target_date or monthly_contribution is
absent (backend rule modelled from the spec); in the rendered card a met
goal always shows the "Goal met" badge, an unmet goal shows an
"On track"/"Behind" badge exactly when on_track is non-null, and shows no
status badge when on_track is null. -/
theorem goal_on_track_null_and_badge_rendering :
    (∀ (mc : Option ℚ) (met : Bool) (rem : ℚ),
      Sprout.goalOnTrack none mc met rem = none) ∧
    (∀ (m : Option ℤ) (met : Bool) (rem : ℚ),
      Sprout.goalOnTrack m none met rem = none) ∧
    (∀ ot, Sprout.goalStatusBadge true ot = some Sprout.GoalBadge.met) ∧
    (∀ ot, (Sprout.goalStatusBadge false ot).isSome = ot.isSome) ∧
    Sprout.goalStatusBadge false none = none ∧
    Sprout.goalStatusBadge false (some true) =
      some Sprout.GoalBadge.onTrack ∧
    Sprout.goalStatusBadge false (some false) =
      some Sprout.GoalBadge.behind := by
  refine ⟨fun mc met rem => ?_, fun m met rem => ?_,
    fun ot => rfl, fun ot => ?_, rfl, rfl, rfl⟩
  · cases mc <;> rfl
  · cases m <;> rfl
  · cases ot <;> rfl

/-- C8: in edit mode the budget form's submitted payload holds only the
amount: category_id, month and year are absent from it (and their form
fields are disabled), so a post-creation update carries no category,
month or year. -/
theorem budget_edit_payload_amount_only (formData : Sprout.BudgetFormData) :
    (Sprout.budgetFormSubmitPayload true formData).category_id = none ∧
    (Sprout.budgetFormSubmitPayload true formData).month = none ∧
    (Sprout.budgetFormSubmitPayload true formData).year = none ∧
    (Sprout.budgetFormSubmitPayload true formData).amount =
      some formData.amount ∧
    Sprout.budgetFieldDisabled true = true :=
  ⟨rfl, rfl, rfl, rfl, rfl⟩

/-- C9 counterexample: on a 401 response (no detail in the body), the
categories, Plaid link-token, token-exchange and Plaid-items wrappers do
not fail with "Unauthorized: Please log in again" but with their own
generic messages, so the translation is not uniform across all wrappers. -/
theorem api_401_not_uniform_counterexample :
    Sprout.fetchCategoriesErrorMessage
      { status := 401, detail := none, body := "" } =
      some "Failed to fetch categories" ∧
    Sprout.getPlaidLinkTokenErrorMessage
      { status := 401, detail := none, body := "" } =
      some "Failed to get Plaid link token: 401" ∧
    Sprout.exchangePlaidTokenErrorMessage
      { status := 401, detail := none, body := "" } =
      some "Failed to exchange Plaid token: 401" ∧
    Sprout.getPlaidItemsErrorMessage
      { status := 401, detail := none, body := "" } =
      some "Failed to load Plaid items" ∧
    ("Failed to fetch categories" : String) ≠ Sprout.unauthorizedMessage := by
  exact ⟨rfl, rfl, rfl, rfl, by decide⟩

/-- C9 amended: every wrapper with an explicit 401 branch (dashboard,
transactions list/create/update/delete, accounts, Plaid items listing with
typing, Plaid item status, reauth link token, Plaid sync, uncategorized
count, batch processing, budgets CRUD, goals CRUD) fails on a 401 response
with "Unauthorized: Please log in again"; the Plaid link-token,
token-exchange, untyped Plaid-items and categories wrappers have no such
branch and surface the body detail or their generic message instead. -/
theorem api_401_message_by_wrapper (r : Sprout.ApiResponse)
    (h : r.status = 401) :
    Sprout.fetchDashboardErrorMessage r = some Sprout.unauthorizedMessage ∧
    Sprout.fetchTransactionsErrorMessage r =
      some Sprout.unauthorizedMessage ∧
    Sprout.fetchAccountsErrorMessage r = some Sprout.unauthorizedMessage ∧
    Sprout.fetchPlaidItemsErrorMessage r = some Sprout.unauthorizedMessage ∧
    Sprout.fetchPlaidItemStatusErrorMessage r =
      some Sprout.unauthorizedMessage ∧
    Sprout.getReauthLinkTokenErrorMessage r =
      some Sprout.unauthorizedMessage ∧
    Sprout.triggerPlaidSyncErrorMessage r = some Sprout.unauthorizedMessage ∧
    Sprout.createTransactionErrorMessage r =
      some Sprout.unauthorizedMessage ∧
    Sprout.updateTransactionErrorMessage r =
      some Sprout.unauthorizedMessage ∧
    Sprout.deleteTransactionErrorMessage r =
      some Sprout.unauthorizedMessage ∧
    Sprout.fetchUncategorizedCountErrorMessage r =
      some Sprout.unauthorizedMessage ∧
    Sprout.processBatchUncategorizedErrorMessage r =
      some Sprout.unauthorizedMessage ∧
    Sprout.fetchBudgetsErrorMessage r = some Sprout.unauthorizedMessage ∧
    Sprout.createBudgetErrorMessage r = some Sprout.unauthorizedMessage ∧
    Sprout.updateBudgetErrorMessage r = some Sprout.unauthorizedMessage ∧
    Sprout.deleteBudgetErrorMessage r = some Sprout.unauthorizedMessage ∧
    Sprout.fetchGoalsErrorMessage r = some Sprout.unauthorizedMessage ∧
    Sprout.createGoalErrorMessage r = some Sprout.unauthorizedMessage ∧
    Sprout.updateGoalErrorMessage r = some Sprout.unauthorizedMessage ∧
    Sprout.deleteGoalErrorMessage r = some Sprout.unauthorizedMessage ∧
    Sprout.fetchCategoriesErrorMessage r =
      some "Failed to fetch categories" ∧
    Sprout.getPlaidItemsErrorMessage r = some "Failed to load Plaid items" ∧
    Sprout.getPlaidLinkTokenErrorMessage r = some (Sprout.jsOrStr r.detail
      ("Failed to get Plaid link token: " ++ toString (401 : Nat))) ∧
    Sprout.exchangePlaidTokenErrorMessage r = some (Sprout.jsOrStr r.detail
      ("Failed to exchange Plaid token: " ++ toString (401 : Nat))) := by
  have hok : Sprout.respOk r = false := by simp [Sprout.respOk, h]
  simp [Sprout.fetchDashboardErrorMessage,
    Sprout.fetchTransactionsErrorMessage, Sprout.fetchAccountsErrorMessage,
    Sprout.fetchPlaidItemsErrorMessage,
    Sprout.fetchPlaidItemStatusErrorMessage,
    Sprout.getReauthLinkTokenErrorMessage,
    Sprout.triggerPlaidSyncErrorMessage,
    Sprout.createTransactionErrorMessage,
    Sprout.updateTransactionErrorMessage,
    Sprout.deleteTransactionErrorMessage,
    Sprout.fetchUncategorizedCountErrorMessage,
    Sprout.processBatchUncategorizedErrorMessage,
    Sprout.fetchBudgetsErrorMessage, Sprout.createBudgetErrorMessage,
    Sprout.updateBudgetErrorMessage, Sprout.deleteBudgetErrorMessage,
    Sprout.fetchGoalsErrorMessage, Sprout.createGoalErrorMessage,
    Sprout.updateGoalErrorMessage, Sprout.deleteGoalErrorMessage,
    Sprout.fetchCategoriesErrorMessage, Sprout.getPlaidItemsErrorMessage,
    Sprout.getPlaidLinkTokenErrorMessage,
    Sprout.exchangePlaidTokenErrorMessage, h, hok]

/-- Witness for C9 (amended) at a concrete 401 response. -/
theorem api_401_message_by_wrapper_witness :
    ({ status := 401, detail := none, body := "" } :
      Sprout.ApiResponse).status = 401 ∧
    Sprout.fetchTransactionsErrorMessage
      { status := 401, detail := none, body := "" } =
      some Sprout.unauthorizedMessage :=
  ⟨rfl, (api_401_message_by_wrapper
    { status := 401, detail := none, body := "" } rfl).2.1⟩
